import Mathlib

/-!
Verification development for the MCBP session core of the
couchbase-ruby-client backend (`ext/couchbase/io/mcbp_session.hxx` and
`ext/couchbase/protocol/client_opcode.hxx`).

The session, its two message handlers and the status mapping are embedded
as pure Lean functions over an explicit `session_state`.  Continuation
invocations are recorded as `fire_event` values in the result of each
operation.  Types that live outside the embedded sources (the parsed
cluster configuration, the HELLO feature list, the synthetic blank
configuration) are modelled from the specification and marked as such in
their doc comments.
-/

namespace couchbase

/-- Modelled from the spec: a node of the parsed cluster configuration
(the `ConfigParser` collaborator yields `{rev, nodes, this-node-index, bucket?}`;
`mcbp_session::update_configuration` reads `node.this_node` and
`node.hostname`).  The concrete C++ `configuration::node` type is not part
of the embedded sources. -/
structure node where
  hostname : String := ""
  port : Nat := 0
  this_node : Bool := false
  deriving DecidableEq, Repr

/-- Modelled from the spec: the parsed cluster configuration view
`{rev, nodes, bucket?}` with a monotonically increasing revision.  The
concrete C++ `configuration` type is not part of the embedded sources. -/
structure configuration where
  rev : Nat := 0
  nodes : List node := []
  bucket : Option String := none
  deriving DecidableEq, Repr

/-- The default-constructed `configuration{}` (revision 0, no nodes, no
bucket), used by `stop` and `invoke_bootstrap_handler` when no
configuration has been stored yet. -/
def blank_config : configuration := {}

/-- Modelled from the spec: the HELLO feature identifiers requested during
negotiation (`protocol/hello_feature.hxx` is not part of the embedded
sources).  Only `xerror` is inspected by the session logic. -/
inductive hello_feature
  | xerror
  | select_bucket
  | snappy
  | alt_request
  | collections
  | durable_write
  | unordered_exec
  | preserve_ttl
  deriving DecidableEq, Repr

/-- Embeds `protocol::client_opcode` from `protocol/client_opcode.hxx`. -/
inductive client_opcode
  | get
  | upsert
  | insert
  | replace
  | remove
  | hello
  | sasl_list_mechs
  | sasl_auth
  | sasl_step
  | select_bucket
  | get_collections_manifest
  | subdoc_multi_lookup
  | subdoc_multi_mutation
  | get_cluster_config
  | get_error_map
  | invalid
  deriving DecidableEq, Repr

/-- The numeric value of each `client_opcode` enumerator
(`protocol/client_opcode.hxx`). -/
def client_opcode.toByte : client_opcode → Nat
  | .get => 0x00
  | .upsert => 0x01
  | .insert => 0x02
  | .replace => 0x03
  | .remove => 0x04
  | .hello => 0x1f
  | .sasl_list_mechs => 0x20
  | .sasl_auth => 0x21
  | .sasl_step => 0x22
  | .select_bucket => 0x89
  | .get_collections_manifest => 0xba
  | .subdoc_multi_lookup => 0xd0
  | .subdoc_multi_mutation => 0xd1
  | .get_cluster_config => 0xb5
  | .get_error_map => 0xfe
  | .invalid => 0xff

/-- The inverse of the `static_cast<client_opcode>` performed by the
handlers on a raw opcode byte: yields the enumerator when the byte is one
of the declared enumerator values. -/
def client_opcode_of_byte (b : Nat) : Option client_opcode :=
  if b = 0x00 then some .get
  else if b = 0x01 then some .upsert
  else if b = 0x02 then some .insert
  else if b = 0x03 then some .replace
  else if b = 0x04 then some .remove
  else if b = 0x1f then some .hello
  else if b = 0x20 then some .sasl_list_mechs
  else if b = 0x21 then some .sasl_auth
  else if b = 0x22 then some .sasl_step
  else if b = 0x89 then some .select_bucket
  else if b = 0xba then some .get_collections_manifest
  else if b = 0xd0 then some .subdoc_multi_lookup
  else if b = 0xd1 then some .subdoc_multi_mutation
  else if b = 0xb5 then some .get_cluster_config
  else if b = 0xfe then some .get_error_map
  else if b = 0xff then some .invalid
  else none

/-- Embeds `protocol::is_valid_client_opcode` from `protocol/client_opcode.hxx`:
a byte is valid iff it is one of the declared enumerator values. -/
def is_valid_client_opcode (b : Nat) : Bool :=
  (client_opcode_of_byte b).isSome

/-- Embeds `protocol::status` enumerators as consumed by
`mcbp_session::map_status_code` and the two handlers.  The numeric values
live in a header that is not part of the embedded sources; the handlers
compare statuses only by enumerator. -/
inductive status
  | success
  | not_found
  | not_stored
  | exists_
  | too_big
  | invalid
  | xattr_invalid
  | subdoc_invalid_combo
  | delta_bad_value
  | no_bucket
  | locked
  | auth_stale
  | auth_error
  | no_access
  | not_supported
  | unknown_command
  | internal
  | busy
  | temp_failure
  | no_memory
  | not_initialized
  | unknown_collection
  | unknown_scope
  | durability_invalid_level
  | durability_impossible
  | sync_write_in_progress
  | sync_write_ambiguous
  | sync_write_re_commit_in_progress
  | subdoc_path_not_found
  | subdoc_path_mismatch
  | subdoc_path_invalid
  | subdoc_path_too_big
  | subdoc_doc_too_deep
  | subdoc_value_cannot_insert
  | subdoc_doc_not_json
  | subdoc_num_range_error
  | subdoc_delta_invalid
  | subdoc_path_exists
  | subdoc_value_too_deep
  | subdoc_xattr_invalid_flag_combo
  | subdoc_xattr_invalid_key_combo
  | subdoc_xattr_unknown_macro_
  | subdoc_xattr_unknown_vattr
  | subdoc_xattr_cannot_modify_vattr
  | subdoc_invalid_xattr_order
  | not_my_vbucket
  | auth_continue
  | range_error
  | rollback
  | unknown_frame_info
  | no_collections_manifest
  | cannot_apply_collections_manifest
  | collections_manifest_is_ahead
  | dcp_stream_id_invalid
  | subdoc_multi_path_failure
  | subdoc_success_deleted
  | subdoc_multi_path_failure_deleted
  deriving DecidableEq, Repr

/-- The error codes produced by the session (`error::common_errc`,
`error::key_value_errc`, `error::network_errc` members referenced by
`mcbp_session.hxx`).  A successful `std::error_code` (`{}`) is modelled as
`Option.none` at use sites. -/
inductive error_code
  | document_not_found
  | document_exists
  | cas_mismatch
  | value_too_large
  | invalid_argument
  | delta_invalid
  | bucket_not_found
  | document_locked
  | authentication_failure
  | unsupported_operation
  | internal_server_failure
  | temporary_failure
  | collection_not_found
  | scope_not_found
  | durability_level_not_available
  | durability_impossible
  | durable_write_in_progress
  | durability_ambiguous
  | durable_write_re_commit_in_progress
  | path_not_found
  | path_mismatch
  | path_invalid
  | path_too_big
  | value_too_deep
  | value_invalid
  | document_not_json
  | number_too_big
  | path_exists
  | xattr_invalid_key_combo
  | xattr_unknown_macro_
  | xattr_unknown_virtual_attribute
  | xattr_cannot_modify_virtual_attribute
  | protocol_error
  | request_canceled
  | handshake_failure
  | unambiguous_timeout
  deriving DecidableEq, Repr

/-- Embeds `mcbp_session::map_status_code`: the total map from `(opcode, status)`
to an error code (`none` models the success `std::error_code`).  The
statuses that fall off the switch (and any unknown raw status) map to
`protocol_error`. -/
def map_status_code (opcode : client_opcode) (st : status) : Option error_code :=
  match st with
  | .success
  | .subdoc_multi_path_failure
  | .subdoc_success_deleted
  | .subdoc_multi_path_failure_deleted => none
  | .not_found
  | .not_stored => some .document_not_found
  | .exists_ =>
    if opcode = .insert then some .document_exists
    else some .cas_mismatch
  | .too_big => some .value_too_large
  | .invalid
  | .xattr_invalid
  | .subdoc_invalid_combo => some .invalid_argument
  | .delta_bad_value => some .delta_invalid
  | .no_bucket => some .bucket_not_found
  | .locked => some .document_locked
  | .auth_stale
  | .auth_error
  | .no_access => some .authentication_failure
  | .not_supported
  | .unknown_command => some .unsupported_operation
  | .internal => some .internal_server_failure
  | .busy
  | .temp_failure
  | .no_memory
  | .not_initialized => some .temporary_failure
  | .unknown_collection => some .collection_not_found
  | .unknown_scope => some .scope_not_found
  | .durability_invalid_level => some .durability_level_not_available
  | .durability_impossible => some .durability_impossible
  | .sync_write_in_progress => some .durable_write_in_progress
  | .sync_write_ambiguous => some .durability_ambiguous
  | .sync_write_re_commit_in_progress => some .durable_write_re_commit_in_progress
  | .subdoc_path_not_found => some .path_not_found
  | .subdoc_path_mismatch => some .path_mismatch
  | .subdoc_path_invalid => some .path_invalid
  | .subdoc_path_too_big => some .path_too_big
  | .subdoc_doc_too_deep => some .value_too_deep
  | .subdoc_value_cannot_insert => some .value_invalid
  | .subdoc_doc_not_json => some .document_not_json
  | .subdoc_num_range_error => some .number_too_big
  | .subdoc_delta_invalid => some .delta_invalid
  | .subdoc_path_exists => some .path_exists
  | .subdoc_value_too_deep => some .value_too_deep
  | .subdoc_xattr_invalid_flag_combo
  | .subdoc_xattr_invalid_key_combo => some .xattr_invalid_key_combo
  | .subdoc_xattr_unknown_macro_ => some .xattr_unknown_macro_
  | .subdoc_xattr_unknown_vattr => some .xattr_unknown_virtual_attribute
  | .subdoc_xattr_cannot_modify_vattr => some .xattr_cannot_modify_virtual_attribute
  | .subdoc_invalid_xattr_order
  | .not_my_vbucket
  | .auth_continue
  | .range_error
  | .rollback
  | .unknown_frame_info
  | .no_collections_manifest
  | .cannot_apply_collections_manifest
  | .collections_manifest_is_ahead
  | .dcp_stream_id_invalid => some .protocol_error

/-- The requests the session enqueues on its write buffers.  The wire
encodings (`protocol::client_request<...>::data()`) live outside the
embedded sources; each request is represented by its opcode, its assigned
opaque and the payload the session supplies, and the raw byte frames
passed to `write_and_subscribe` are kept as `raw`. -/
inductive request
  | hello (opq : Nat)
  | sasl_list_mechs (opq : Nat)
  | sasl_auth (opq : Nat)
  | sasl_step (opq : Nat)
  | get_error_map (opq : Nat)
  | select_bucket (opq : Nat) (bucket : String)
  | get_cluster_config (opq : Nat)
  | raw (data : List Nat)
  deriving DecidableEq, Repr

/-- A recorded continuation invocation: `op h ec` fires the command
continuation with identifier `h` (an entry of `command_handlers_`) with
error `ec` (`none` = success), `boot ec cfg` fires the bootstrap
continuation `bootstrap_handler_` with `(ec, cfg)`. -/
inductive fire_event
  | op (handler : Nat) (ec : Option error_code)
  | boot (ec : Option error_code) (config : configuration)
  deriving DecidableEq, Repr

/-- A decoded incoming frame as seen by the two message handlers.  `magic`
and `opcode` are the raw header bytes, `opq` the header opaque and `st`
the response status.  The decoded bodies (HELLO feature list, SASL
payload, embedded configuration, notification bucket name) are carried as
fields, since the body codecs live outside the embedded sources. -/
structure mcbp_message where
  magic : Nat := 0x81
  opcode : Nat := 0x00
  opq : Nat := 0
  st : status := .success
  features : List hello_feature := []
  value : List Nat := []
  config : configuration := blank_config
  bucket : String := ""
  deriving DecidableEq, Repr

/-- The state of one `mcbp_session` (the fields of `mcbp_session` that the
embedded operations read or write).  Continuations are represented by
numeric identifiers: `command_handlers` maps an opaque to a continuation
identifier, `boot_handler` records whether `bootstrap_handler_` is
non-null.  `handler_ready` records that `handler_` has been swapped to the
`normal_handler`. -/
structure session_state where
  stopped : Bool := false
  bootstrapped : Bool := false
  authenticated : Bool := false
  bucket_selected : Bool := false
  supports_gcccp : Bool := true
  handler_ready : Bool := false
  boot_handler : Bool := false
  bucket_name : Option String := none
  config : Option configuration := none
  errmap : Bool := false
  supported_features : List hello_feature := []
  opq_counter : Nat := 0
  command_handlers : List (Nat × Nat) := []
  output_buffer : List request := []
  pending_buffer : List request := []
  writing_buffer : List request := []
  endpoint_address : String := ""
  endpoint_port : Nat := 0
  socket_open : Bool := true
  deriving DecidableEq, Repr

/-- Lookup in the opaque registry (`command_handlers_.find(opq)`). -/
def registry_find (l : List (Nat × Nat)) (k : Nat) : Option Nat :=
  match l.find? (fun p => p.1 = k) with
  | some p => some p.2
  | none => none

/-- Embeds `command_handlers_.emplace(opq, handler)`: `std::map::emplace` inserts
only when the key is not yet present. -/
def registry_emplace (l : List (Nat × Nat)) (k v : Nat) : List (Nat × Nat) :=
  if (l.find? (fun p => p.1 = k)).isSome then l else l ++ [(k, v)]

/-- Embeds `command_handlers_.erase(it)` for the entry with key `k`. -/
def registry_erase (l : List (Nat × Nat)) (k : Nat) : List (Nat × Nat) :=
  l.filter (fun p => p.1 ≠ k)

/-- Embeds `mcbp_session::write`: append the frame to `output_buffer_` unless the
session is stopped. -/
def session_write (s : session_state) (r : request) : session_state :=
  if s.stopped then s
  else { s with output_buffer := s.output_buffer ++ [r] }

/-- Embeds `mcbp_session::do_write`: if no write is in flight and the output
buffer is non-empty, swap the output buffer into the writing buffer (the
asynchronous socket write itself is a suspension point outside the model). -/
def do_write (s : session_state) : session_state :=
  if s.stopped then s
  else if ¬s.writing_buffer.isEmpty ∨ s.output_buffer.isEmpty then s
  else { s with writing_buffer := s.output_buffer, output_buffer := [] }

/-- Embeds `mcbp_session::flush`. -/
def session_flush (s : session_state) : session_state :=
  if s.stopped then s else do_write s

/-- Embeds `mcbp_session::write_and_flush`. -/
def write_and_flush (s : session_state) (r : request) : session_state :=
  if s.stopped then s else session_flush (session_write s r)

/-- Embeds `mcbp_session::next_opaque` (`return ++opaque_`): yields the
incremented counter together with the updated session. -/
def next_opq (s : session_state) : Nat × session_state :=
  (s.opq_counter + 1, { s with opq_counter := s.opq_counter + 1 })

/-- The per-node rewrite performed by `mcbp_session::update_configuration`
on an accepted configuration: a node marked `this_node` that arrived with
an empty hostname gets the session's connected endpoint address. -/
def rewrite_node (addr : String) (n : node) : node :=
  if n.this_node ∧ n.hostname = "" then { n with hostname := addr } else n

/-- Embeds `mcbp_session::update_configuration`: no-op when stopped; otherwise
the incoming configuration is stored iff there is no stored configuration
or the incoming revision strictly exceeds the stored one, after patching
`this_node` hostnames with the connected endpoint address. -/
def update_configuration (s : session_state) (c : configuration) : session_state :=
  if s.stopped then s
  else
    match s.config with
    | none =>
      { s with config := some { c with nodes := c.nodes.map (rewrite_node s.endpoint_address) } }
    | some old =>
      if old.rev < c.rev then
        { s with config := some { c with nodes := c.nodes.map (rewrite_node s.endpoint_address) } }
      else s

/-- A sequence of `update_configuration` calls. -/
def apply_updates (s : session_state) (cs : List configuration) : session_state :=
  cs.foldl update_configuration s

/-- Embeds `mcbp_session::stop`: idempotent shutdown.  On the first call it sets
the stopped flag, fires the bootstrap continuation (if still registered
and not bootstrapped) with `request_canceled` and a default-constructed
configuration, then drains every entry of the opaque registry with
`request_canceled` and clears the registry.  Timer/socket teardown are
suspension-point effects outside the model (`socket_open` is cleared). -/
def stop (s : session_state) : session_state × List fire_event :=
  if s.stopped then (s, [])
  else
    let s1 : session_state := { s with stopped := true, socket_open := false }
    let bootEvents : List fire_event :=
      if ¬s.bootstrapped ∧ s.boot_handler then
        [.boot (some .request_canceled) blank_config]
      else []
    let s2 : session_state :=
      if ¬s.bootstrapped ∧ s.boot_handler then { s1 with boot_handler := false } else s1
    let opEvents : List fire_event :=
      s.command_handlers.map (fun p => .op p.2 (some .request_canceled))
    ({ s2 with command_handlers := [] }, bootEvents ++ opEvents)

/-- Iterates `stop`: `n` successive calls of `stop`, with the fired events accumulated in
call order. -/
def stopN : Nat → session_state → session_state × List fire_event
  | 0, s => (s, [])
  | n + 1, s =>
    let r1 := stop s
    let r2 := stopN n r1.1
    (r2.1, r1.2 ++ r2.2)

/-- Embeds `mcbp_session::write_and_subscribe`: on a stopped session the
continuation fails synchronously with `request_canceled` and nothing else
happens; otherwise the continuation is registered under the opaque and the
frame is either flushed (bootstrapped and socket open) or parked on the
pending buffer. -/
def write_and_subscribe (s : session_state) (opq : Nat) (data : List Nat) (handler : Nat) :
    session_state × List fire_event :=
  if s.stopped then (s, [.op handler (some .request_canceled)])
  else
    let s1 : session_state :=
      { s with command_handlers := registry_emplace s.command_handlers opq handler }
    if s1.bootstrapped ∧ s1.socket_open then (write_and_flush s1 (.raw data), [])
    else ({ s1 with pending_buffer := s1.pending_buffer ++ [.raw data] }, [])

/-- Embeds `mcbp_session::cancel`: no-op on a stopped session; otherwise, if the
opaque is registered, fire its continuation with the supplied error and
erase the entry. -/
def cancel (s : session_state) (opq : Nat) (ec : Option error_code) :
    session_state × List fire_event :=
  if s.stopped then (s, [])
  else
    match registry_find s.command_handlers opq with
    | some h =>
      ({ s with command_handlers := registry_erase s.command_handlers opq }, [.op h ec])
    | none => (s, [])

/-- Embeds `mcbp_session::supports_feature`. -/
def supports_feature (s : session_state) (f : hello_feature) : Bool :=
  s.supported_features.contains f

/-- Modelled from the spec: `make_blank_configuration(hostname, port,
this_node_index)` — not part of the embedded sources — builds the
synthetic single-node configuration with revision 0 from the connected
endpoint, used by the pre-GCCCP fallback. -/
def make_blank_configuration (hostname : String) (port : Nat) (_idx : Nat) : configuration :=
  { rev := 0, nodes := [{ hostname := hostname, port := port, this_node := true }], bucket := none }

/-- Outcomes of the `sasl::ClientContext::step` collaborator (`cbsasl` is
outside the embedded sources): `OK`, `CONTINUE`, or any failing code. -/
inductive sasl_error
  | OK
  | CONTINUE
  | FAIL
  deriving DecidableEq, Repr

/-- Embeds `mcbp_session::invoke_bootstrap_handler`: fire the bootstrap
continuation (if registered and not yet bootstrapped) with the stored
configuration or a default-constructed one; on error stop the session; on
success mark the session bootstrapped, swap in the `normal_handler`
(whose constructor issues a config fetch when GCCCP is supported) and
replay the pending buffer. -/
def invoke_bootstrap_handler (s : session_state) (ec : Option error_code) :
    session_state × List fire_event :=
  let fired := ¬s.bootstrapped ∧ s.boot_handler
  let events : List fire_event :=
    if fired then [.boot ec (s.config.getD blank_config)] else []
  let s1 : session_state := if fired then { s with boot_handler := false } else s
  match ec with
  | some _ =>
    let r := stop s1
    (r.1, events ++ r.2)
  | none =>
    let s2 : session_state := { s1 with bootstrapped := true, handler_ready := true }
    let s3 : session_state :=
      if s2.supports_gcccp then
        let p := next_opq s2
        write_and_flush p.2 (.get_cluster_config p.1)
      else s2
    let s4 : session_state :=
      if ¬s3.pending_buffer.isEmpty then
        session_flush (s3.pending_buffer.foldl session_write { s3 with pending_buffer := [] })
      else s3
    (s4, events)

/-- Embeds `bootstrap_handler::auth_success`: mark authenticated, enqueue
GET-ERROR-MAP when `xerror` was negotiated, SELECT-BUCKET when a bucket
name is configured, then GET-CLUSTER-CONFIG, and flush. -/
def auth_success (s : session_state) : session_state :=
  let sa : session_state := { s with authenticated := true }
  let sb : session_state :=
    if supports_feature sa .xerror then
      let p := next_opq sa
      session_write p.2 (.get_error_map p.1)
    else sa
  let sc : session_state :=
    match sb.bucket_name with
    | some name =>
      let p := next_opq sb
      session_write p.2 (.select_bucket p.1 name)
    | none => sb
  let p := next_opq sc
  session_flush (session_write p.2 (.get_cluster_config p.1))

/-- Embeds `bootstrap_handler::complete`: mark the handler stopped and invoke the
session's bootstrap continuation machinery.  The first component of the
result is the handler's stopped flag. -/
def bh_complete (s : session_state) (ec : Option error_code) :
    Bool × session_state × List fire_event :=
  let r := invoke_bootstrap_handler s ec
  (true, r.1, r.2)

/-- Embeds `bootstrap_handler::handle`.  `saslStep` is the
`sasl::ClientContext::step` collaborator, `hstopped` the handler's stopped
flag (also covering a severed session back reference).  The
`Expects(is_valid_client_opcode(...))` caller contract is represented by
the `none` branch of the opcode cast, which leaves the state untouched.
The result is the handler's stopped flag, the session state and the
continuation firings. -/
def bootstrap_handle (saslStep : List Nat → sasl_error × List Nat)
    (hstopped : Bool) (s : session_state) (msg : mcbp_message) :
    Bool × session_state × List fire_event :=
  if hstopped then (hstopped, s, [])
  else
    match client_opcode_of_byte msg.opcode with
    | some .hello =>
      if msg.st = .success then
        (false, { s with supported_features := msg.features }, [])
      else bh_complete s (some .handshake_failure)
    | some .sasl_list_mechs =>
      if msg.st ≠ .success then bh_complete s (some .authentication_failure)
      else (false, s, [])
    | some .sasl_auth =>
      if msg.st = .success then (false, auth_success s, [])
      else if msg.st = .auth_continue then
        match (saslStep msg.value).1 with
        | .OK => (false, auth_success s, [])
        | .CONTINUE =>
          let p := next_opq s
          (false, write_and_flush p.2 (.sasl_step p.1), [])
        | .FAIL => bh_complete s (some .authentication_failure)
      else bh_complete s (some .authentication_failure)
    | some .sasl_step =>
      if msg.st = .success then (false, auth_success s, [])
      else bh_complete s (some .authentication_failure)
    | some .get_error_map =>
      if msg.st = .success then (false, { s with errmap := true }, [])
      else bh_complete s (some .protocol_error)
    | some .select_bucket =>
      if msg.st = .success then (false, { s with bucket_selected := true }, [])
      else if msg.st = .no_access then
        bh_complete { s with bucket_selected := false } (some .bucket_not_found)
      else bh_complete s (some .bucket_not_found)
    | some .get_cluster_config =>
      if msg.st = .success then
        bh_complete (update_configuration s msg.config) none
      else if msg.st = .no_bucket ∧ s.bucket_name = none then
        let s1 : session_state := { s with supports_gcccp := false }
        bh_complete
          (update_configuration s1
            (make_blank_configuration s1.endpoint_address s1.endpoint_port 0)) none
      else bh_complete s (some .protocol_error)
    | some .get
    | some .upsert
    | some .insert
    | some .replace
    | some .remove
    | some .get_collections_manifest
    | some .subdoc_multi_lookup
    | some .subdoc_multi_mutation
    | some .invalid => bh_complete s (some .protocol_error)
    | none => (hstopped, s, [])

/-- The routable response opcodes of `normal_handler::handle` (the case
labels of the registry-dispatch block that exist in this revision's
`client_opcode` enum; the C++ list also names opcodes such as
`get_collection_id` or `touch` that the embedded `client_opcode.hxx` does
not declare). -/
def routable_opcode (op : client_opcode) : Bool :=
  match op with
  | .get | .insert | .replace | .upsert | .remove
  | .subdoc_multi_lookup | .subdoc_multi_mutation => true
  | _ => false

/-- Embeds `normal_handler::handle`.  Magic bytes: `0x81` client-response, `0x18`
alt-client-response, `0x82` server-request (server opcode `0x01` is
cluster-map-change-notification); magics `0x80`, `0x08`, `0x83` are
logged and dropped.  The `Expects(is_valid_*)` caller contracts are
represented by the fall-through branches, which leave the state
untouched. -/
def normal_handle (hstopped : Bool) (s : session_state) (msg : mcbp_message) :
    session_state × List fire_event :=
  if hstopped then (s, [])
  else if msg.magic = 0x81 ∨ msg.magic = 0x18 then
    match client_opcode_of_byte msg.opcode with
    | some .get_cluster_config =>
      if msg.st = .success then (update_configuration s msg.config, [])
      else (s, [])
    | some op =>
      if routable_opcode op then
        match registry_find s.command_handlers msg.opq with
        | some h =>
          ({ s with command_handlers := registry_erase s.command_handlers msg.opq },
           [.op h (map_status_code op msg.st)])
        | none => (s, [])
      else (s, [])
    | none => (s, [])
  else if msg.magic = 0x82 then
    if msg.opcode = 0x01 then
      if (msg.config.bucket = none ∧ msg.bucket = "") ∨
         (s.bucket_name.isSome ∧ msg.bucket ≠ "" ∧ s.bucket_name = some msg.bucket) then
        (update_configuration s msg.config, [])
      else (s, [])
    else (s, [])
  else (s, [])

/-- The adoption condition for a cluster-map-change-notification as the
claim states it: either the notification's bucket field is empty and the
embedded configuration carries no bucket, or the session has a configured
bucket name, the notification's bucket field is non-empty, and the two
names are equal. -/
def notification_applies (s : session_state) (msg : mcbp_message) : Prop :=
  (msg.bucket = "" ∧ msg.config.bucket = none) ∨
  (s.bucket_name.isSome ∧ msg.bucket ≠ "" ∧ s.bucket_name = some msg.bucket)

instance notification_applies_decidable (s : session_state) (msg : mcbp_message) :
    Decidable (notification_applies s msg) := by
  unfold notification_applies
  infer_instance

/-! ## General lemmas about the session operations -/

theorem update_configuration_stopped_eq (s : session_state) (c : configuration) :
    (update_configuration s c).stopped = s.stopped := by
  unfold update_configuration
  split
  · rfl
  · cases s.config with
    | none => rfl
    | some old =>
      dsimp only
      split <;> rfl

theorem update_configuration_handlers_eq (s : session_state) (c : configuration) :
    (update_configuration s c).command_handlers = s.command_handlers := by
  unfold update_configuration
  split
  · rfl
  · cases s.config with
    | none => rfl
    | some old =>
      dsimp only
      split <;> rfl

theorem update_configuration_rev_ge (s : session_state) (c old : configuration)
    (hs : s.stopped = false) (h : s.config = some old) :
    ∃ cur, (update_configuration s c).config = some cur ∧ old.rev ≤ cur.rev := by
  unfold update_configuration
  rw [hs, h]
  simp only [Bool.false_eq_true, if_false]
  by_cases hlt : old.rev < c.rev
  · refine ⟨{ c with nodes := c.nodes.map (rewrite_node s.endpoint_address) }, ?_,
      Nat.le_of_lt hlt⟩
    simp [hlt]
  · exact ⟨old, by simp [hlt, h], Nat.le_refl _⟩

theorem update_configuration_installs (s : session_state) (c : configuration)
    (hs : s.stopped = false) :
    ∃ cur, (update_configuration s c).config = some cur ∧ c.rev ≤ cur.rev := by
  unfold update_configuration
  rw [hs]
  simp only [Bool.false_eq_true, if_false]
  cases h : s.config with
  | none =>
    exact ⟨{ c with nodes := c.nodes.map (rewrite_node s.endpoint_address) }, rfl,
      Nat.le_refl _⟩
  | some old =>
    dsimp only
    by_cases hlt : old.rev < c.rev
    · refine ⟨{ c with nodes := c.nodes.map (rewrite_node s.endpoint_address) }, ?_,
        Nat.le_refl _⟩
      simp [hlt]
    · exact ⟨old, by simp [hlt, h], Nat.le_of_not_lt hlt⟩

theorem apply_updates_rev_mono (cs : List configuration) (s : session_state)
    (old : configuration) (hs : s.stopped = false) (h : s.config = some old) :
    ∃ cur, (apply_updates s cs).config = some cur ∧ old.rev ≤ cur.rev := by
  induction cs generalizing s old with
  | nil => exact ⟨old, h, Nat.le_refl _⟩
  | cons c cs ih =>
    obtain ⟨mid, hmid, hle⟩ := update_configuration_rev_ge s c old hs h
    have hs' : (update_configuration s c).stopped = false := by
      rw [update_configuration_stopped_eq, hs]
    obtain ⟨cur, hcur, hle'⟩ := ih (update_configuration s c) mid hs' hmid
    exact ⟨cur, hcur, Nat.le_trans hle hle'⟩

theorem stop_of_stopped (s : session_state) (hs : s.stopped = true) :
    stop s = (s, []) := by
  simp [stop, hs]

theorem stop_sets_stopped (s : session_state) : (stop s).1.stopped = true := by
  unfold stop
  split
  · assumption
  · dsimp only
    split <;> rfl

theorem stopN_of_stopped (n : Nat) (s : session_state) (hs : s.stopped = true) :
    stopN n s = (s, []) := by
  induction n with
  | zero => rfl
  | succ m ih => simp [stopN, stop_of_stopped s hs, ih]

/-! ## Claim theorems -/

/-- C2: `map_status_code` maps status `exists` to *document-exists* iff
the opcode is `insert`, and to *cas-mismatch* for every other opcode. -/
theorem c2_map_status_exists :
    (∀ op : client_opcode,
        map_status_code op .exists_ = some .document_exists ↔ op = .insert) ∧
    (∀ op : client_opcode,
        op ≠ .insert → map_status_code op .exists_ = some .cas_mismatch) := by
  constructor <;> intro op <;> cases op <;> simp [map_status_code]

/-- Witness for C2 at the opcodes `insert` and `upsert`. -/
theorem c2_map_status_exists_witness :
    map_status_code .insert .exists_ = some .document_exists ∧
    map_status_code .upsert .exists_ = some .cas_mismatch :=
  ⟨(c2_map_status_exists.1 .insert).mpr rfl,
   c2_map_status_exists.2 .upsert (by decide)⟩

/-- C8: `write_and_subscribe` on a stopped session fires the supplied
continuation synchronously with *request-canceled*, leaves the opaque
registry untouched and enqueues nothing. -/
theorem c8_write_and_subscribe_stopped (s : session_state) (o : Nat) (d : List Nat)
    (h : Nat) (hs : s.stopped = true) :
    write_and_subscribe s o d h = (s, [.op h (some .request_canceled)]) ∧
    (write_and_subscribe s o d h).1.command_handlers = s.command_handlers ∧
    (write_and_subscribe s o d h).1.output_buffer = s.output_buffer ∧
    (write_and_subscribe s o d h).1.pending_buffer = s.pending_buffer := by
  simp [write_and_subscribe, hs]

/-- Witness for C8 on a concrete stopped session. -/
theorem c8_write_and_subscribe_stopped_witness :
    write_and_subscribe { stopped := true, command_handlers := [(4, 44)] } 9 [0x80, 0x00] 77 =
      ({ stopped := true, command_handlers := [(4, 44)] },
        [.op 77 (some .request_canceled)]) :=
  (c8_write_and_subscribe_stopped
    { stopped := true, command_handlers := [(4, 44)] } 9 [0x80, 0x00] 77 rfl).1

/-- C10: `cancel` on a stopped session is a no-op: no continuation fires
and the opaque registry is unchanged. -/
theorem c10_cancel_stopped_noop (s : session_state) (o : Nat) (ec : Option error_code)
    (hs : s.stopped = true) :
    cancel s o ec = (s, []) := by
  simp [cancel, hs]

/-- Witness for C10 on a concrete stopped session that still held a
registry entry. -/
theorem c10_cancel_stopped_noop_witness :
    cancel { stopped := true, command_handlers := [(5, 55)] } 5
        (some .unambiguous_timeout) =
      ({ stopped := true, command_handlers := [(5, 55)] }, []) :=
  c10_cancel_stopped_noop { stopped := true, command_handlers := [(5, 55)] } 5
    (some .unambiguous_timeout) rfl

/-- C3: on a non-stopped session a stored configuration is replaced only
when the incoming revision strictly exceeds the stored one; after
`update_configuration c` the stored revision is at least `c.rev`; and over
any further sequence of `update_configuration` calls the stored revision
never decreases. -/
theorem c3_update_configuration_monotone (s : session_state) (c old : configuration)
    (cs : List configuration) (hs : s.stopped = false) (hold : s.config = some old) :
    ((update_configuration s c).config ≠ s.config → old.rev < c.rev) ∧
    c.rev ≤ ((update_configuration s c).config.getD blank_config).rev ∧
    old.rev ≤ ((apply_updates s cs).config.getD blank_config).rev := by
  refine ⟨?_, ?_, ?_⟩
  · intro hne
    by_contra hnlt
    apply hne
    unfold update_configuration
    rw [hs, hold]
    simp [Nat.lt_of_not_le, hnlt, hold]
  · obtain ⟨cur, hcur, hle⟩ := update_configuration_installs s c hs
    rw [hcur]
    exact hle
  · obtain ⟨cur, hcur, hle⟩ := apply_updates_rev_mono cs s old hs hold
    rw [hcur]
    exact hle

/-- Witness for C3: stored revision 5, incoming revision 7, then a
sequence with revisions 3 and 9. -/
theorem c3_update_configuration_monotone_witness :
    ((update_configuration { config := some { rev := 5 } } { rev := 7 }).config ≠
        (session_state.config { config := some { rev := 5 } }) →
      (5 : Nat) < 7) ∧
    (7 : Nat) ≤
      (((update_configuration { config := some { rev := 5 } } { rev := 7 }).config).getD
        blank_config).rev ∧
    (5 : Nat) ≤
      (((apply_updates { config := some { rev := 5 } }
          [{ rev := 3 }, { rev := 9 }]).config).getD blank_config).rev :=
  c3_update_configuration_monotone { config := some { rev := 5 } } { rev := 7 }
    { rev := 5 } [{ rev := 3 }, { rev := 9 }] rfl rfl

/-- C4: `stop` is idempotent — any `n ≥ 1` successive calls on a
non-stopped session produce exactly the firings of the first call and end
in the state of the first call; that first call empties the opaque
registry and fires every registered continuation exactly once with
*request-canceled* (preceded by the bootstrap continuation, when one is
still registered). -/
theorem c4_stop_idempotent (s : session_state) (n : Nat) (hs : s.stopped = false)
    (hn : 1 ≤ n) :
    (stopN n s).1 = (stop s).1 ∧
    (stopN n s).2 = (stop s).2 ∧
    (stop s).1.command_handlers = [] ∧
    (stop s).2 =
      (if ¬s.bootstrapped ∧ s.boot_handler then
        [fire_event.boot (some .request_canceled) blank_config]
      else []) ++
        s.command_handlers.map (fun p => fire_event.op p.2 (some .request_canceled)) := by
  obtain ⟨m, rfl⟩ : ∃ m, n = m + 1 := ⟨n - 1, (Nat.succ_pred_eq_of_pos hn).symm⟩
  have hrest := stopN_of_stopped m (stop s).1 (stop_sets_stopped s)
  refine ⟨?_, ?_, ?_, ?_⟩
  · simp [stopN, hrest]
  · simp [stopN, hrest]
  · simp [stop, hs]
  · simp [stop, hs]

/-- Witness for C4: three calls of `stop` on a session with two pending
continuations. -/
theorem c4_stop_idempotent_witness :
    (stopN 3 { bootstrapped := true, command_handlers := [(1, 11), (2, 12)] }).1 =
      (stop { bootstrapped := true, command_handlers := [(1, 11), (2, 12)] }).1 ∧
    (stopN 3 { bootstrapped := true, command_handlers := [(1, 11), (2, 12)] }).2 =
      (stop { bootstrapped := true, command_handlers := [(1, 11), (2, 12)] }).2 ∧
    (stop { bootstrapped := true, command_handlers := [(1, 11), (2, 12)] }).1.command_handlers
      = [] ∧
    (stop { bootstrapped := true, command_handlers := [(1, 11), (2, 12)] }).2 =
      (if ¬(session_state.bootstrapped
            { bootstrapped := true, command_handlers := [(1, 11), (2, 12)] }) ∧
          session_state.boot_handler
            { bootstrapped := true, command_handlers := [(1, 11), (2, 12)] } then
        [fire_event.boot (some .request_canceled) blank_config]
      else []) ++
        List.map (fun p => fire_event.op p.2 (some .request_canceled))
          (session_state.command_handlers
            { bootstrapped := true, command_handlers := [(1, 11), (2, 12)] }) :=
  c4_stop_idempotent { bootstrapped := true, command_handlers := [(1, 11), (2, 12)] } 3
    rfl (by decide)

/-- The per-node description used by claim C9: `this_node` nodes arriving
with an empty hostname take the session's connected endpoint address, all
other node fields are unchanged. -/
def claim_node_rewrite (addr : String) (n : node) : node :=
  { hostname := if n.this_node ∧ n.hostname = "" then addr else n.hostname,
    port := n.port,
    this_node := n.this_node }

theorem rewrite_node_eq_claim (addr : String) (n : node) :
    rewrite_node addr n = claim_node_rewrite addr n := by
  unfold rewrite_node claim_node_rewrite
  split
  · rename_i hcond
    simp [hcond]
  · rename_i hcond
    simp [if_neg hcond]

/-- C9: whenever `update_configuration` accepts a configuration (no
configuration stored yet, or a strictly larger revision), the stored
configuration is the incoming one with every `this_node` node that
arrived with an empty hostname given the session's endpoint address, and
with every other node field (and the revision and bucket) unchanged. -/
theorem c9_update_configuration_rewrites_this_node_hostname
    (s : session_state) (c : configuration) (hs : s.stopped = false)
    (hacc : s.config = none ∨ ∃ old, s.config = some old ∧ old.rev < c.rev) :
    (update_configuration s c).config =
      some { rev := c.rev,
             nodes := c.nodes.map (claim_node_rewrite s.endpoint_address),
             bucket := c.bucket } := by
  have hmap : c.nodes.map (rewrite_node s.endpoint_address) =
      c.nodes.map (claim_node_rewrite s.endpoint_address) :=
    List.map_congr_left fun n _ => rewrite_node_eq_claim s.endpoint_address n
  unfold update_configuration
  rw [hs]
  simp only [Bool.false_eq_true, if_false]
  rcases hacc with hnone | ⟨old, hold, hlt⟩
  · rw [hnone]
    simp [hmap]
  · rw [hold]
    simp [hlt, hmap]

/-- Witness for C9: a fresh session at endpoint address `"10.0.0.1"`
accepts a two-node configuration whose `this_node` entry arrived with an
empty hostname. -/
theorem c9_update_configuration_rewrites_witness :
    (update_configuration { endpoint_address := "10.0.0.1" }
        { rev := 4,
          nodes := [{ hostname := "", port := 11210, this_node := true },
                    { hostname := "other", port := 11210, this_node := false }],
          bucket := some "b" }).config =
      some { rev := 4,
             nodes := List.map (claim_node_rewrite "10.0.0.1")
               [{ hostname := "", port := 11210, this_node := true },
                { hostname := "other", port := 11210, this_node := false }],
             bucket := some "b" } :=
  c9_update_configuration_rewrites_this_node_hostname
    { endpoint_address := "10.0.0.1" }
    { rev := 4,
      nodes := [{ hostname := "", port := 11210, this_node := true },
                { hostname := "other", port := 11210, this_node := false }],
      bucket := some "b" } rfl (Or.inl rfl)

/-- C7: in steady state a `cluster-map-change-notification` server
request leads to `update_configuration` on the embedded configuration
exactly when `notification_applies` holds, and leaves the session
untouched otherwise. -/
theorem c7_cluster_map_notification_adoption (s : session_state) (msg : mcbp_message)
    (hm : msg.magic = 0x82) (hop : msg.opcode = 0x01) :
    (notification_applies s msg →
      normal_handle false s msg = (update_configuration s msg.config, [])) ∧
    (¬notification_applies s msg → normal_handle false s msg = (s, [])) := by
  have hcond :
      ((msg.config.bucket = none ∧ msg.bucket = "") ∨
        (s.bucket_name.isSome ∧ msg.bucket ≠ "" ∧ s.bucket_name = some msg.bucket)) ↔
      notification_applies s msg := by
    unfold notification_applies
    tauto
  have hred : normal_handle false s msg =
      if (msg.config.bucket = none ∧ msg.bucket = "") ∨
          (s.bucket_name.isSome ∧ msg.bucket ≠ "" ∧ s.bucket_name = some msg.bucket) then
        (update_configuration s msg.config, [])
      else (s, []) := by
    unfold normal_handle
    rw [hm, hop]
    rw [if_neg (by decide : ¬(false = true))]
    rw [if_neg (by decide : ¬((130 : Nat) = 129 ∨ (130 : Nat) = 24))]
    rw [if_pos (rfl : (130 : Nat) = 130)]
    rw [if_pos (rfl : (1 : Nat) = 1)]
  constructor <;> intro hap
  · rw [hred, if_pos (hcond.mpr hap)]
  · rw [hred, if_neg (fun hc => hap (hcond.mp hc))]

/-- Witness for C7: a session bound to bucket `"b"` adopts a notification
for bucket `"b"`, and ignores one for bucket `"other"`. -/
theorem c7_cluster_map_notification_adoption_witness :
    (notification_applies { bucket_name := some "b" }
        { magic := 0x82, opcode := 0x01, bucket := "b", config := { rev := 18 } } →
      normal_handle false { bucket_name := some "b" }
          { magic := 0x82, opcode := 0x01, bucket := "b", config := { rev := 18 } } =
        (update_configuration { bucket_name := some "b" }
          (mcbp_message.config
            { magic := 0x82, opcode := 0x01, bucket := "b", config := { rev := 18 } }),
         [])) ∧
    (¬notification_applies { bucket_name := some "b" }
        { magic := 0x82, opcode := 0x01, bucket := "b", config := { rev := 18 } } →
      normal_handle false { bucket_name := some "b" }
          { magic := 0x82, opcode := 0x01, bucket := "b", config := { rev := 18 } } =
        ({ bucket_name := some "b" }, [])) :=
  c7_cluster_map_notification_adoption { bucket_name := some "b" }
    { magic := 0x82, opcode := 0x01, bucket := "b", config := { rev := 18 } } rfl rfl

/-- The concrete steady-state session used to refute claim C1: one
continuation (identifier 42) is registered under opaque 7. -/
def c1_session : session_state :=
  { bootstrapped := true, handler_ready := true, command_handlers := [(7, 42)] }

/-- The concrete frame used to refute claim C1: a successful
`get-cluster-config` client response bearing opaque 7. -/
def c1_msg : mcbp_message :=
  { magic := 0x81, opcode := 0xb5, opq := 7, st := .success, config := { rev := 1 } }

/-- Counterexample to C1 as stated: a successful `get-cluster-config`
client response whose opaque has a registered continuation fires no
continuation at all — the ready handler's `get_cluster_config` case only
installs the configuration and never consults the opaque registry, so the
entry stays registered. -/
theorem c1_counterexample :
    c1_msg.opcode = client_opcode.get_cluster_config.toByte ∧
    c1_msg.st = status.success ∧
    registry_find c1_session.command_handlers c1_msg.opq = some 42 ∧
    (normal_handle false c1_session c1_msg).2 = [] ∧
    (normal_handle false c1_session c1_msg).1.command_handlers = [(7, 42)] := by
  refine ⟨rfl, rfl, rfl, ?_, ?_⟩ <;> rfl

/-- C1 (amended): when the ready handler receives a successful
`get-cluster-config` client response it installs the carried
configuration via `update_configuration` but fires no continuation, and
the opaque registry is left unchanged (a continuation registered under
that opaque stays registered). -/
theorem c1_amended_get_cluster_config_updates_without_fire
    (s : session_state) (msg : mcbp_message)
    (hm : msg.magic = 0x81 ∨ msg.magic = 0x18)
    (hop : msg.opcode = 0xb5) (hst : msg.st = .success) :
    normal_handle false s msg = (update_configuration s msg.config, []) ∧
    (normal_handle false s msg).1.command_handlers = s.command_handlers := by
  have h1 : normal_handle false s msg = (update_configuration s msg.config, []) := by
    unfold normal_handle
    rcases hm with hm | hm <;>
      simp [hm, hop, hst, client_opcode_of_byte]
  exact ⟨h1, by rw [h1]; exact update_configuration_handlers_eq s msg.config⟩

/-- Witness for the amended C1 at the concrete counterexample input. -/
theorem c1_amended_witness :
    normal_handle false c1_session c1_msg =
      (update_configuration c1_session c1_msg.config, []) ∧
    (normal_handle false c1_session c1_msg).1.command_handlers =
      c1_session.command_handlers :=
  c1_amended_get_cluster_config_updates_without_fire c1_session c1_msg
    (Or.inl rfl) rfl rfl

theorem session_write_fields (s : session_state) (r : request) :
    (session_write s r).config = s.config ∧
    (session_write s r).supports_gcccp = s.supports_gcccp := by
  unfold session_write
  split <;> exact ⟨rfl, rfl⟩

theorem do_write_fields (s : session_state) :
    (do_write s).config = s.config ∧ (do_write s).supports_gcccp = s.supports_gcccp := by
  unfold do_write
  split
  · exact ⟨rfl, rfl⟩
  · split <;> exact ⟨rfl, rfl⟩

theorem session_flush_fields (s : session_state) :
    (session_flush s).config = s.config ∧
    (session_flush s).supports_gcccp = s.supports_gcccp := by
  unfold session_flush
  split
  · exact ⟨rfl, rfl⟩
  · exact do_write_fields s

theorem foldl_session_write_fields (l : List request) (s : session_state) :
    (l.foldl session_write s).config = s.config ∧
    (l.foldl session_write s).supports_gcccp = s.supports_gcccp := by
  induction l generalizing s with
  | nil => exact ⟨rfl, rfl⟩
  | cons r l ih =>
    have h1 := session_write_fields s r
    have h2 := ih (session_write s r)
    exact ⟨h2.1.trans h1.1, h2.2.trans h1.2⟩

theorem invoke_bootstrap_handler_success_fields (t : session_state)
    (hb : t.bootstrapped = false) (hbh : t.boot_handler = true)
    (hg : t.supports_gcccp = false) :
    (invoke_bootstrap_handler t none).1.supports_gcccp = false ∧
    (invoke_bootstrap_handler t none).1.config = t.config ∧
    (invoke_bootstrap_handler t none).2 =
      [fire_event.boot none (t.config.getD blank_config)] := by
  unfold invoke_bootstrap_handler
  simp only [hb, hbh, hg, Bool.false_eq_true, not_false_eq_true, and_self, if_true,
    if_false, true_and]
  refine ⟨?_, ?_, ?_⟩
  · split
    · rw [(session_flush_fields _).2, (foldl_session_write_fields _ _).2]
    · rfl
  · split
    · rw [(session_flush_fields _).1, (foldl_session_write_fields _ _).1]
    · rfl
  · trivial

/-- C5: during bootstrap, a frame whose (valid) client opcode is not one
of {hello, sasl-list-mechs, sasl-auth, sasl-step, get-error-map,
select-bucket, get-cluster-config} makes the bootstrap handler complete
the bootstrap continuation with *protocol-error* and stop the session. -/
theorem c5_bootstrap_unexpected_opcode_protocol_error
    (saslStep : List Nat → sasl_error × List Nat) (s : session_state)
    (msg : mcbp_message) (op : client_opcode)
    (hv : client_opcode_of_byte msg.opcode = some op)
    (hop : op ∉ [client_opcode.hello, client_opcode.sasl_list_mechs,
      client_opcode.sasl_auth, client_opcode.sasl_step, client_opcode.get_error_map,
      client_opcode.select_bucket, client_opcode.get_cluster_config])
    (hb : s.bootstrapped = false) (hbh : s.boot_handler = true) :
    bootstrap_handle saslStep false s msg =
      (true, (stop { s with boot_handler := false }).1,
        fire_event.boot (some .protocol_error) (s.config.getD blank_config) ::
          (stop { s with boot_handler := false }).2) := by
  have hcomp : bh_complete s (some .protocol_error) =
      (true, (stop { s with boot_handler := false }).1,
        fire_event.boot (some .protocol_error) (s.config.getD blank_config) ::
          (stop { s with boot_handler := false }).2) := by
    unfold bh_complete invoke_bootstrap_handler
    simp [hb, hbh]
  cases op with
  | hello => exact absurd (by decide) hop
  | sasl_list_mechs => exact absurd (by decide) hop
  | sasl_auth => exact absurd (by decide) hop
  | sasl_step => exact absurd (by decide) hop
  | get_error_map => exact absurd (by decide) hop
  | select_bucket => exact absurd (by decide) hop
  | get_cluster_config => exact absurd (by decide) hop
  | get =>
    unfold bootstrap_handle
    rw [if_neg (by decide : ¬(false = true)), hv]
    exact hcomp
  | upsert =>
    unfold bootstrap_handle
    rw [if_neg (by decide : ¬(false = true)), hv]
    exact hcomp
  | insert =>
    unfold bootstrap_handle
    rw [if_neg (by decide : ¬(false = true)), hv]
    exact hcomp
  | replace =>
    unfold bootstrap_handle
    rw [if_neg (by decide : ¬(false = true)), hv]
    exact hcomp
  | remove =>
    unfold bootstrap_handle
    rw [if_neg (by decide : ¬(false = true)), hv]
    exact hcomp
  | get_collections_manifest =>
    unfold bootstrap_handle
    rw [if_neg (by decide : ¬(false = true)), hv]
    exact hcomp
  | subdoc_multi_lookup =>
    unfold bootstrap_handle
    rw [if_neg (by decide : ¬(false = true)), hv]
    exact hcomp
  | subdoc_multi_mutation =>
    unfold bootstrap_handle
    rw [if_neg (by decide : ¬(false = true)), hv]
    exact hcomp
  | invalid =>
    unfold bootstrap_handle
    rw [if_neg (by decide : ¬(false = true)), hv]
    exact hcomp

/-- Witness for C5: an `upsert` response (opcode `0x01`) arriving during
bootstrap on a session with one registered command continuation. -/
theorem c5_bootstrap_unexpected_opcode_witness :
    bootstrap_handle (fun _ => (.OK, [])) false
        { boot_handler := true, command_handlers := [(3, 33)] }
        { opcode := 0x01 } =
      (true,
        (stop { boot_handler := false, command_handlers := [(3, 33)] }).1,
        fire_event.boot (some .protocol_error) blank_config ::
          (stop { boot_handler := false, command_handlers := [(3, 33)] }).2) :=
  c5_bootstrap_unexpected_opcode_protocol_error (fun _ => (.OK, []))
    { boot_handler := true, command_handlers := [(3, 33)] } { opcode := 0x01 }
    .upsert rfl (by decide) rfl rfl

/-- C6: during bootstrap, a `get-cluster-config` response with status
*no-bucket* on a session with no configured bucket makes the session
non-GCCCP-capable, installs the synthetic single-node revision-0
configuration built from the connected endpoint, and completes the
bootstrap continuation with no error. -/
theorem c6_bootstrap_no_bucket_gcccp_fallback
    (saslStep : List Nat → sasl_error × List Nat) (s : session_state)
    (msg : mcbp_message)
    (hs : s.stopped = false) (hb : s.bootstrapped = false) (hbh : s.boot_handler = true)
    (hbn : s.bucket_name = none) (hcfg : s.config = none)
    (hop : msg.opcode = 0xb5) (hst : msg.st = .no_bucket) :
    (bootstrap_handle saslStep false s msg).1 = true ∧
    (bootstrap_handle saslStep false s msg).2.1.supports_gcccp = false ∧
    (bootstrap_handle saslStep false s msg).2.1.config =
      some (make_blank_configuration s.endpoint_address s.endpoint_port 0) ∧
    (bootstrap_handle saslStep false s msg).2.2 =
      [fire_event.boot none
        (make_blank_configuration s.endpoint_address s.endpoint_port 0)] := by
  have hnode : rewrite_node s.endpoint_address
      { hostname := s.endpoint_address, port := s.endpoint_port, this_node := true } =
      { hostname := s.endpoint_address, port := s.endpoint_port, this_node := true } := by
    unfold rewrite_node
    split <;> rfl
  have hupd : update_configuration { s with supports_gcccp := false }
      (make_blank_configuration s.endpoint_address s.endpoint_port 0) =
      { s with
        supports_gcccp := false
        config := some (make_blank_configuration s.endpoint_address s.endpoint_port 0) } := by
    unfold update_configuration
    simp [hs, hcfg, make_blank_configuration, hnode]
  have hred : bootstrap_handle saslStep false s msg =
      bh_complete
        (update_configuration { s with supports_gcccp := false }
          (make_blank_configuration s.endpoint_address s.endpoint_port 0)) none := by
    unfold bootstrap_handle
    rw [if_neg (by decide : ¬(false = true)), hop]
    rw [show client_opcode_of_byte 0xb5 = some client_opcode.get_cluster_config from rfl]
    dsimp only
    rw [hst]
    rw [if_neg (by decide : ¬(status.no_bucket = status.success))]
    rw [if_pos (⟨rfl, hbn⟩ : status.no_bucket = status.no_bucket ∧ s.bucket_name = none)]
  rw [hred, hupd]
  obtain ⟨h1, h2, h3⟩ :=
    invoke_bootstrap_handler_success_fields
      { s with
        supports_gcccp := false
        config := some (make_blank_configuration s.endpoint_address s.endpoint_port 0) }
      hb hbh rfl
  exact ⟨rfl, h1, h2, h3⟩

/-- Witness for C6: a bucket-less session connected to
`192.168.1.5:11210` receiving the *no-bucket* `get-cluster-config`
response. -/
theorem c6_bootstrap_no_bucket_gcccp_witness :
    (bootstrap_handle (fun _ => (.OK, [])) false
        { boot_handler := true, endpoint_address := "192.168.1.5", endpoint_port := 11210 }
        { opcode := 0xb5, st := .no_bucket }).1 = true ∧
    (bootstrap_handle (fun _ => (.OK, [])) false
        { boot_handler := true, endpoint_address := "192.168.1.5", endpoint_port := 11210 }
        { opcode := 0xb5, st := .no_bucket }).2.1.supports_gcccp = false ∧
    (bootstrap_handle (fun _ => (.OK, [])) false
        { boot_handler := true, endpoint_address := "192.168.1.5", endpoint_port := 11210 }
        { opcode := 0xb5, st := .no_bucket }).2.1.config =
      some (make_blank_configuration "192.168.1.5" 11210 0) ∧
    (bootstrap_handle (fun _ => (.OK, [])) false
        { boot_handler := true, endpoint_address := "192.168.1.5", endpoint_port := 11210 }
        { opcode := 0xb5, st := .no_bucket }).2.2 =
      [fire_event.boot none (make_blank_configuration "192.168.1.5" 11210 0)] :=
  c6_bootstrap_no_bucket_gcccp_fallback (fun _ => (.OK, []))
    { boot_handler := true, endpoint_address := "192.168.1.5", endpoint_port := 11210 }
    { opcode := 0xb5, st := .no_bucket } rfl rfl rfl rfl rfl rfl rfl

end couchbase
